import Mathlib

/-!
Verification development for the `async-template-literal-engine` module
(`src/template-engine.js`): a shallow embedding of its data model and
operations (file cache with mtime-based reload, per-path locking, path
resolution, execution-context construction, timeout race, per-session
`set`/`get`, the `export_var`/`import_vars` exchange, and the stack-trace
normalizer), together with theorems settling the specification claims.
-/

namespace TemplateEngine

/-! ## JavaScript object model

A JavaScript object is modelled as a partial map from property names to
values.  `obj_set` is property assignment (`o[k] = v`), `obj_del` is
`delete o[k]`, `spread2 a b` is the object literal `{...a, ...b}` (later
spread wins on collision), and `obj_of_list` builds an object literal from
an ordered list of explicit properties (later entries win). -/

def JsObj (β : Type) := String → Option β

def obj_empty {β : Type} : JsObj β := fun _ => none

def obj_set {β : Type} (o : JsObj β) (k : String) (v : β) : JsObj β :=
  fun q => if q = k then some v else o q

def obj_del {β : Type} (o : JsObj β) (k : String) : JsObj β :=
  fun q => if q = k then none else o q

def spread2 {β : Type} (a b : JsObj β) : JsObj β :=
  fun q => (b q).orElse (fun _ => a q)

def obj_of_list {β : Type} (l : List (String × β)) : JsObj β :=
  l.foldl (fun o kv => obj_set o kv.1 kv.2) obj_empty

/-! ## JavaScript string primitives

`str_ends_with s sfx` is `s.endsWith(sfx)`, `str_starts_with` is
`s.startsWith(p)`, `str_contains s pat` is `s.includes(pat)`, and
`str_to_lower` is `s.toLowerCase()` (ASCII-adequate for the constant
`"template-engine.js"` it is compared against). -/

def str_ends_with (s sfx : String) : Bool := sfx.data.isSuffixOf s.data

def str_starts_with (s pre : String) : Bool := pre.data.isPrefixOf s.data

def str_contains (s pat : String) : Bool :=
  (List.range (s.data.length + 1)).any (fun i => pat.data.isPrefixOf (s.data.drop i))

def str_to_lower (s : String) : String := String.mk (s.data.map Char.toLower)

/-! ## Node `path` primitives

Models of the `path` module calls the engine makes, for inputs that are
already normalized (no `.`/`..` segments, `/` separator): `path.resolve`
of a base directory and one further segment, `path.basename(p, suffix)`
and `path.dirname(p)`. -/

def path_resolve (base p : String) : String :=
  if str_starts_with p "/" then p else base ++ "/" ++ p

def split_on_char (c : Char) : List Char → List (List Char)
  | [] => [[]]
  | x :: xs =>
    match split_on_char c xs with
    | [] => if x = c then [[], []] else [[x]]
    | g :: gs => if x = c then [] :: g :: gs else (x :: g) :: gs

def join_sep (sep : Char) : List (List Char) → List Char
  | [] => []
  | [g] => g
  | g :: gs => g ++ sep :: join_sep sep gs

def last_component (p : String) : String :=
  String.mk ((split_on_char '/' p.data).getLastD p.data)

def path_basename (p sfx : String) : String :=
  let b := last_component p
  if b != sfx && str_ends_with b sfx then
    String.mk (b.data.take (b.data.length - sfx.data.length))
  else b

def path_dirname (p : String) : String :=
  String.mk (join_sep '/' (split_on_char '/' p.data).dropLast)

/-! ## Template-name resolution

From `include` (src/template-engine.js:53):
`path.resolve(settings.views, filename.endsWith(settings.extension) ?
filename : `${filename}.${settings.extension}`)`.  Note the staleness of
the check: it is a bare `endsWith` on the extension *characters*, with no
`.` separator required. -/

def resolve_filepath (views ext filename : String) : String :=
  path_resolve views (if str_ends_with filename ext then filename
                      else filename ++ "." ++ ext)

/-- Modelled from the spec wording for comparison with `resolve_filepath`:
a name "already carrying the extension" read as ending in the dotted
suffix `.<extension>`, so the extension is appended exactly when the name
does not end in `"." ++ ext`. -/
def resolve_filepath_dotted (views ext filename : String) : String :=
  path_resolve views (if str_ends_with filename ("." ++ ext) then filename
                      else filename ++ "." ++ ext)

/-- Engine-construction default for `extension` (src/template-engine.js:11). -/
def effective_extension (params_extension : Option String) : String :=
  params_extension.getD "template"

/-- Engine-construction default for `timeout` (src/template-engine.js:14). -/
def effective_timeout (params_timeout : Option Nat) : Nat :=
  params_timeout.getD 10000

theorem str_ends_with_append (base sfx : String) :
    str_ends_with (base ++ sfx) sfx = true := by
  simp [str_ends_with, String.data_append, List.isSuffixOf]

/-! ## Errors, compiled scripts, and the file cache

`JsError` covers the failures the engine can surface: the `ReferenceError`
raised when a template touches an undeclared context name, I/O failures of
`fs.stat`/`fs.readFile`, a `vm.Script` construction failure, the timeout
rejection of src/template-engine.js:76, and a runtime throw from a
template body. -/

inductive JsError where
  | referenceError (name : String)
  | ioError
  | compileError
  | timeoutError (msg : String)
  | runtimeError (msg : String)
deriving DecidableEq, Repr

/-- A `vm.Script` value: determined by its source text and the options the
engine passes (`filename`, `lineOffset`), src/template-engine.js:27-34. -/
structure Script where
  source : String
  filename : String
  lineOffset : Int
deriving DecidableEq, Repr

/-- The wrapper the engine puts around raw template text before handing it
to `new vm.Script` (src/template-engine.js:28-31): an `export_var`
preamble followed by a zero-argument async arrow whose body is the
template text as a template literal. -/
def wrap_source (content : String) : String :=
  "const export_var = (key, val) => \x7b__exports[key] = val; return \"\"\x7d\n" ++
  "                        async () => `\n" ++
  "                        " ++ content ++ "\n" ++
  "                        `"

/-- Result of `new vm.Script(wrapped, \x7bfilename, lineOffset: -2\x7d)`
when construction succeeds (src/template-engine.js:27-34). -/
def vm_Script (filepath content : String) : Script :=
  { source := wrap_source content, filename := filepath, lineOffset := -2 }

/-- A cache entry `\x7bmtime, script\x7d` (src/template-engine.js:25-35);
`mtime` holds the stat mtime's `valueOf()` (milliseconds). -/
structure CacheEntry where
  mtime : Int
  script : Script
deriving DecidableEq, Repr

/-- Outcome of the filesystem for one path at one instant: the stat mtime
(`valueOf()`), and the result `fs.readFile` would deliver.  A path mapped
to `none` fails to stat (e.g. `ENOENT`). -/
structure FsFile where
  mtime : Int
  read : Except Unit String
deriving Repr

def Fs := String → Option FsFile

/-- Mutable engine state: the `file_cache` object keyed by resolved path,
and the multiset of currently held per-path locks (the `event-loop-mutex`
instances that have been `lock()`ed but not yet released). -/
structure EngineState where
  file_cache : JsObj CacheEntry
  locks : List String

/-- Model of `load_template` (src/template-engine.js:17-41), with the external
capabilities passed explicitly: `script_of p content` stands for
`new vm.Script(...)` (which may throw on invalid source) and `fs` for
`fs.stat`/`fs.readFile`.  The mutex for `filepath` is acquired on entry
and released in the `finally`, i.e. on every exit path.  The `Bool` in a
successful outcome records whether the recompile branch ran (file read,
entry discarded, fresh script compiled and inserted); `ok false` means the
cache already held an entry whose stored mtime equals the current stat
mtime, and neither `fs.readFile` nor the compiler was invoked. -/
def load_template (script_of : String → String → Except JsError Script)
    (fs : Fs) (st : EngineState) (filepath : String) :
    EngineState × Except JsError Bool :=
  let locks := filepath :: st.locks
  let body : Except JsError (JsObj CacheEntry × Bool) :=
    match fs filepath with
    | none => .error .ioError
    | some f =>
      let new_template := (st.file_cache filepath).isNone
      let needs_compile := new_template ||
        (match st.file_cache filepath with
         | some e => f.mtime != e.mtime
         | none => false)
      if needs_compile then
        match f.read with
        | .error _ => .error .ioError
        | .ok content =>
          match script_of filepath content with
          | .error e => .error e
          | .ok script =>
            .ok (obj_set (obj_del st.file_cache filepath) filepath
                   { mtime := f.mtime, script }, true)
      else .ok (st.file_cache, false)
  match body with
  | .ok (c, b) => ({ file_cache := c, locks := locks.erase filepath }, .ok b)
  | .error e => ({ file_cache := st.file_cache, locks := locks.erase filepath }, .error e)

/-! ## Execution-context construction

The context object literal of src/template-engine.js:55-73.  A bound name
is either a plain data value coming from the `always_inject` / `options`
spreads, one of the five engine helper functions, or one of the three
string-valued identity fields.  The literal's evaluation order is
reproduced: the two spreads first, then the engine-assigned properties,
each later assignment overriding earlier ones. -/

inductive CtxBinding (α : Type) where
  | val (v : α)
  | includeFn
  | setFn
  | getFn
  | importVarsFn
  | logFn
  | strVal (s : String)
deriving DecidableEq, Repr

/-- The eight property names the engine assigns after the spreads. -/
def reserved_names : List String :=
  ["include", "set", "get", "import_vars", "log",
   "__template", "__filename", "__dirname"]

def build_context {α : Type} (always_inject options : JsObj α)
    (filepath ext : String) : JsObj (CtxBinding α) :=
  let base : JsObj (CtxBinding α) := fun q =>
    match options q with
    | some v => some (.val v)
    | none => (always_inject q).map .val
  obj_set (obj_set (obj_set (obj_set (obj_set (obj_set (obj_set (obj_set base
    "include" .includeFn)
    "set" .setFn)
    "get" .getFn)
    "import_vars" .importVarsFn)
    "log" .logFn)
    "__template" (.strVal (path_basename filepath ("." ++ ext))))
    "__filename" (.strVal filepath))
    "__dirname" (.strVal (path_dirname filepath))

/-- The options object a nested `include(include_filename, include_options)`
forwards (src/template-engine.js:57-58): the literal
`\x7b...options, ...include_options\x7d`. -/
def forwarded_options {α : Type} (options overrides : JsObj α) : JsObj α :=
  spread2 options overrides

/-! ## Per-session `set` / `get`

`locals` is the per-`include`-call object of src/template-engine.js:54;
`set` assigns and returns the empty string (lines 59-62), `get` reads
(line 63), yielding JavaScript `undefined` — modelled as `none` — for a
key never assigned. -/

def tmpl_set {α : Type} (locals : JsObj α) (k : String) (v : α) : JsObj α × String :=
  (obj_set locals k v, "")

def tmpl_get {α : Type} (locals : JsObj α) (k : String) : Option α :=
  locals k

/-- The `locals` object produced by a sequence of `set` calls starting
from the fresh `\x7b\x7d` of line 54. -/
def run_sets {α : Type} (ops : List (String × α)) : JsObj α :=
  obj_of_list ops

/-! ## `export_var`

From the compiled preamble (src/template-engine.js:28):
`const export_var = (key, val) => \x7b__exports[key] = val; return ""\x7d`.
`__exports` is a free name resolved against the execution context: it is
bound exactly when the render was started by `import_vars`, which spreads
`__exports` into the options (line 66).  When unbound, evaluating
`__exports[key] = val` raises `ReferenceError: __exports is not defined`. -/

def run_export_var {α : Type} (bag : Option (JsObj α)) (key : String) (v : α) :
    Except JsError (JsObj α × String) :=
  match bag with
  | none => .error (.referenceError "__exports")
  | some b => .ok (obj_set b key v, "")

/-! ## Abstract template bodies and `import_vars`

A template body is abstracted as the sequence of engine-relevant actions
the interpolated fragments perform: emitting text, calling `set`, or
calling `export_var`.  `run_ops` executes such a body in a render session
(export bag, `locals` store, accumulated output) using the helper
semantics above. -/

inductive TmplOp (α : Type) where
  | text (s : String)
  | setVar (k : String) (v : α)
  | exportVar (k : String) (v : α)

structure RunState (α : Type) where
  bag : Option (JsObj α)
  locals : JsObj α
  out : String

def run_op {α : Type} (st : RunState α) : TmplOp α → Except JsError (RunState α)
  | .text s => .ok { st with out := st.out ++ s }
  | .setVar k v =>
    let r := tmpl_set st.locals k v
    .ok { st with locals := r.1, out := st.out ++ r.2 }
  | .exportVar k v =>
    match run_export_var st.bag k v with
    | .error e => .error e
    | .ok (b, s) => .ok { st with bag := some b, out := st.out ++ s }

def run_ops {α : Type} (body : List (TmplOp α)) (st : RunState α) :
    Except JsError (RunState α) :=
  match body with
  | [] => .ok st
  | op :: rest =>
    match run_op st op with
    | .error e => .error e
    | .ok st' => run_ops rest st'

/-- Model of `import_vars` (src/template-engine.js:64-68): create a fresh
`__exports = \x7b\x7d`, render the named template as an include whose
session carries that bag, discard the rendered text, and return the bag.
The body's rendering is represented by `run_ops` on the abstract body. -/
def import_vars {α : Type} (body : List (TmplOp α)) : Except JsError (JsObj α) :=
  match run_ops body { bag := some obj_empty, locals := obj_empty, out := "" } with
  | .error e => .error e
  | .ok st => .ok (st.bag.getD obj_empty)

/-- Reference accumulation of a body's exports into a bag. -/
def exports_of {α : Type} (body : List (TmplOp α)) : JsObj α :=
  body.foldl (fun b op =>
    match op with
    | .exportVar k v => obj_set b k v
    | _ => b) obj_empty

/-- The keys a body exports. -/
def exported_keys {α : Type} (body : List (TmplOp α)) : List String :=
  body.filterMap (fun op =>
    match op with
    | .exportVar k _ => some k
    | _ => none)

/-! ## Timeout race

src/template-engine.js:75-85: the render races the compiled unit's
evaluation against `setTimeout(reject, timeout)`.  `evalTime` is the
instant (ms) at which evaluation would settle (`none` if it never
settles), `evalResult` what it would settle with; the rejection fires at
`timeout` ms, and a promise keeps its first settlement. -/

def timeout_message (filepath : String) : String :=
  "Rendering " ++ filepath ++ " timed out"

def render_race (timeout : Nat) (filepath : String) (evalTime : Option Nat)
    (evalResult : Except JsError String) : Except JsError String :=
  match evalTime with
  | none => .error (.timeoutError (timeout_message filepath))
  | some t =>
    if t < timeout then evalResult
    else .error (.timeoutError (timeout_message filepath))

/-! ## Stack-trace normalizer

src/template-engine.js:91-96: the error's stack is split into lines; a
line is kept iff it is the first line, or it references neither the
engine's own file (`path.basename(__filename)`, lower-cased comparison)
nor the vm dispatcher's `Script.runInContext` / `Script.runInNewContext`
frames. -/

def engine_basename : String := "template-engine.js"

def line_is_internal (line : String) : Bool :=
  str_contains (str_to_lower line) engine_basename ||
  str_contains line "Script.runInContext" ||
  str_contains line "Script.runInNewContext"

def normalize_stack (lines : List String) : List String :=
  (lines.enum.filter (fun p => p.1 == 0 || !line_is_internal p.2)).map (·.2)

/-! ## Auxiliary lemmas -/

theorem obj_of_list_not_mem {α : Type} (o : JsObj α) (ops : List (String × α))
    (k : String) (h : k ∉ ops.map Prod.fst) (ho : o k = none) :
    (ops.foldl (fun o kv => obj_set o kv.1 kv.2) o) k = none := by
  induction ops generalizing o with
  | nil => exact ho
  | cons kv rest ih =>
    simp only [List.map_cons, List.mem_cons, not_or] at h
    exact ih (obj_set o kv.1 kv.2) h.2 (by simp [obj_set, ho, h.1])

/-! ## Claim theorems -/

/-- C2 counterexample: the claim reads "carries the extension suffix" as
ending in the dotted suffix `.<extension>`, and asserts a name without the
configured extension is always searched as `<name>.<extension>`.  The code
checks a bare `endsWith(extension)`: the name `"mytemplate"` with
extension `"template"` has no `.template` suffix, yet the code does not
append, resolving it to `<views>/mytemplate`, not
`<views>/mytemplate.template`. -/
theorem resolve_c2_counterexample :
    resolve_filepath "/views" "template" "mytemplate" = "/views/mytemplate"
  ∧ resolve_filepath_dotted "/views" "template" "mytemplate"
      = "/views/mytemplate.template"
  ∧ resolve_filepath "/views" "template" "mytemplate"
      ≠ resolve_filepath_dotted "/views" "template" "mytemplate" :=
  ⟨by decide, by decide, by decide⟩

/-- C2 (amended): the renderer resolves a name to
`<views>/<name>.<extension>` when the name does not end with the extension
*string* (dot not required by the check), and to `<views>/<name>`
unchanged when it does; in particular a name already ending in the dotted
suffix `.<extension>` is never double-appended. -/
theorem resolve_filepath_extension_policy (views ext filename : String) :
    (str_ends_with filename ext = true →
       resolve_filepath views ext filename = path_resolve views filename)
  ∧ (str_ends_with filename ext = false →
       resolve_filepath views ext filename
         = path_resolve views (filename ++ "." ++ ext))
  ∧ (∀ base : String,
       resolve_filepath views ext (base ++ "." ++ ext)
         = path_resolve views (base ++ "." ++ ext)) := by
  refine ⟨fun h => by simp [resolve_filepath, h],
          fun h => by simp [resolve_filepath, h],
          fun base => ?_⟩
  have h : str_ends_with (base ++ "." ++ ext) ext = true := by
    simp [str_ends_with, String.data_append, List.isSuffixOf]
  simp [resolve_filepath, h]

theorem resolve_filepath_extension_policy_witness :
    str_ends_with "hello" "template" = false
  ∧ resolve_filepath "/views" "template" "hello"
      = path_resolve "/views" ("hello" ++ "." ++ "template") :=
  ⟨by decide,
   (resolve_filepath_extension_policy "/views" "template" "hello").2.1 (by decide)⟩

/-- C3: when the compiled unit's evaluation does not settle before the
configured timeout elapses (default 10000 ms), the race of
src/template-engine.js:75-85 rejects with the timeout error naming the
template path, and no rendered string is delivered. -/
theorem render_race_timeout (timeout : Nat) (fp : String) (evalTime : Option Nat)
    (evalResult : Except JsError String)
    (h : ∀ t, evalTime = some t → timeout ≤ t) :
    render_race timeout fp evalTime evalResult
      = .error (.timeoutError ("Rendering " ++ fp ++ " timed out"))
  ∧ (∀ s, render_race timeout fp evalTime evalResult ≠ .ok s)
  ∧ effective_timeout none = 10000 := by
  have hmain : render_race timeout fp evalTime evalResult
      = .error (.timeoutError ("Rendering " ++ fp ++ " timed out")) := by
    cases evalTime with
    | none => rfl
    | some t =>
      have ht := h t rfl
      simp [render_race, timeout_message, Nat.not_lt.mpr ht]
  exact ⟨hmain, fun s hs => by simp [hmain] at hs, rfl⟩

theorem render_race_timeout_witness :
    (∀ t, (none : Option Nat) = some t → 5 ≤ t)
  ∧ render_race 5 "/views/slow.template" none (.ok "partial")
      = .error (.timeoutError ("Rendering " ++ "/views/slow.template" ++ " timed out")) := by
  refine ⟨(by intro t ht; cases ht), ?_⟩
  exact (render_race_timeout 5 "/views/slow.template" none (.ok "partial")
    (by intro t ht; cases ht)).1

/-- C4 counterexample: the claim says that without an export bag attached,
`export_var` is a no-op (or defines a bag on demand) rather than a
failure.  In the code `__exports` is a free name only bound when the
render was started by `import_vars`; otherwise `__exports[key] = val`
raises `ReferenceError`, so the call fails rather than no-ops. -/
theorem export_var_no_bag_throws :
    ¬ ∃ r, run_export_var (α := Nat) none "k" 0 = Except.ok r := by
  rintro ⟨r, hr⟩
  simp [run_export_var] at hr

/-- C4 (amended): `export_var(key, value)` writes key/value into the
session's export bag and produces empty output when a bag is attached;
when the render was not invoked as an export target (no `__exports` in the
context), the call fails with `ReferenceError: __exports is not defined`
rather than being a no-op. -/
theorem export_var_policy (α : Type) (bag : JsObj α) (k : String) (v : α) :
    run_export_var (some bag) k v = .ok (obj_set bag k v, "")
  ∧ (obj_set bag k v) k = some v
  ∧ run_export_var (α := α) none k v = .error (.referenceError "__exports") :=
  ⟨rfl, by simp [obj_set], rfl⟩

/-- C9: within one render session, `set("k", v)` then `get("k")` returns
`v`; `get` of a key never `set` returns the undefined sentinel (`none`)
rather than failing; `set` always returns the empty string
(src/template-engine.js:59-63). -/
theorem set_get_roundtrip (α : Type) (locals : JsObj α) (k : String) (v : α)
    (ops : List (String × α)) :
    tmpl_get (tmpl_set locals k v).1 k = some v
  ∧ (tmpl_set locals k v).2 = ""
  ∧ (k ∉ ops.map Prod.fst → tmpl_get (run_sets ops) k = none) := by
  refine ⟨by simp [tmpl_get, tmpl_set, obj_set], rfl, fun h => ?_⟩
  exact obj_of_list_not_mem obj_empty ops k h rfl

theorem set_get_roundtrip_witness :
    ("k" ∉ ([("a", 2)] : List (String × Nat)).map Prod.fst)
  ∧ tmpl_get (run_sets [("a", (2 : Nat))]) "k" = none :=
  ⟨by decide,
   (set_get_roundtrip Nat obj_empty "k" 1 [("a", 2)]).2.2 (by decide)⟩

/-- C10: the engine-provided bindings `include`, `set`, `get`,
`import_vars`, `log`, `__template`, `__filename` and `__dirname` are
assigned into the context object literal after the `always_inject` and
`options` spreads (src/template-engine.js:55-73), so for every injected
globals object and every options object their lookups yield the
engine-assigned binding — a caller cannot replace them. -/
theorem build_context_reserved (α : Type) (inject options : JsObj α)
    (fp ext : String) :
    build_context inject options fp ext "include" = some .includeFn
  ∧ build_context inject options fp ext "set" = some .setFn
  ∧ build_context inject options fp ext "get" = some .getFn
  ∧ build_context inject options fp ext "import_vars" = some .importVarsFn
  ∧ build_context inject options fp ext "log" = some .logFn
  ∧ build_context inject options fp ext "__template"
      = some (.strVal (path_basename fp ("." ++ ext)))
  ∧ build_context inject options fp ext "__filename" = some (.strVal fp)
  ∧ build_context inject options fp ext "__dirname"
      = some (.strVal (path_dirname fp)) := by
  refine ⟨?_, ?_, ?_, ?_, ?_, ?_, ?_, ?_⟩ <;> simp [build_context, obj_set]

theorem enumFrom_filter_internal (rest : List String) :
    ∀ n, n ≠ 0 →
      ((rest.enumFrom n).filter (fun p => p.1 == 0 || !line_is_internal p.2)).map (·.2)
        = rest.filter (fun l => !line_is_internal l) := by
  induction rest with
  | nil => intro n _; rfl
  | cons x xs ih =>
    intro n hn
    have hbeq : (n == 0) = false := by simpa using hn
    by_cases hx : line_is_internal x <;>
      simp [List.enumFrom_cons, List.filter_cons, hbeq, hx,
            ih (n + 1) (Nat.succ_ne_zero n)]

/-- C7: execution-context name precedence — caller options override
injected globals on collision (src/template-engine.js:56), and a nested
`include(name, overrides)` forwards `\x7b...options, ...overrides\x7d`
where overrides win (lines 57-58); in particular a parent invoked with
`\x7bx: 0, y: 2\x7d` calling `include("child", \x7bx: 1\x7d)` exposes
`x = 1, y = 2` to the child context. -/
theorem context_precedence (α : Type) (inject options overrides : JsObj α)
    (fp ext q : String) (hq : q ∉ reserved_names) :
    build_context inject options fp ext q
      = (match options q with
         | some v => some (CtxBinding.val v)
         | none => (inject q).map CtxBinding.val)
  ∧ build_context inject (forwarded_options options overrides) fp ext q
      = (match (overrides q).orElse (fun _ => options q) with
         | some v => some (CtxBinding.val v)
         | none => (inject q).map CtxBinding.val)
  ∧ (build_context obj_empty
       (forwarded_options (obj_of_list [("x", (0 : Nat)), ("y", 2)])
         (obj_of_list [("x", 1)])) fp ext "x" = some (.val 1)
     ∧ build_context obj_empty
         (forwarded_options (obj_of_list [("x", (0 : Nat)), ("y", 2)])
           (obj_of_list [("x", 1)])) fp ext "y" = some (.val 2)) := by
  obtain ⟨h1, h2, h3, h4, h5, h6, h7, h8⟩ :
      q ≠ "include" ∧ q ≠ "set" ∧ q ≠ "get" ∧ q ≠ "import_vars" ∧ q ≠ "log" ∧
      q ≠ "__template" ∧ q ≠ "__filename" ∧ q ≠ "__dirname" := by
    simpa [reserved_names, not_or] using hq
  refine ⟨?_, ?_, ?_, ?_⟩ <;>
    simp [build_context, obj_set, forwarded_options, spread2,
          obj_of_list, obj_empty, h1, h2, h3, h4, h5, h6, h7, h8]

theorem context_precedence_witness :
    ("x" ∉ reserved_names)
  ∧ build_context obj_empty
      (forwarded_options (obj_of_list [("x", (0 : Nat)), ("y", 2)])
        (obj_of_list [("x", 1)])) "/views/child.template" "template" "x"
      = some (.val 1) := by
  refine ⟨by decide, ?_⟩
  exact (context_precedence Nat obj_empty obj_empty obj_empty
    "/views/child.template" "template" "x" (by decide)).2.2.1

/-- C5: the stack normalizer (src/template-engine.js:91-96) keeps the
first line of the trace unconditionally and, from the remaining lines,
removes exactly those referencing the engine's own file or the vm
dispatcher frames (`Script.runInContext` / `Script.runInNewContext`); a
synchronously throwing template therefore surfaces a trace whose first
location line references the template file and line, with no
engine-internal frames left. -/
theorem normalize_stack_policy (msg : String) (rest : List String) :
    normalize_stack (msg :: rest)
      = msg :: rest.filter (fun l => !line_is_internal l)
  ∧ (∀ l, l ∈ (normalize_stack (msg :: rest)).tail → line_is_internal l = false)
  ∧ normalize_stack
      ["Error: whoops :/",
       "    at /srv/example/views/error.template:3:11",
       "    at include (/srv/async-template-literal-engine/template-engine.js:84:44)",
       "    at Script.runInNewContext (node:vm:149:12)"]
      = ["Error: whoops :/", "    at /srv/example/views/error.template:3:11"] := by
  have hmain : normalize_stack (msg :: rest)
      = msg :: rest.filter (fun l => !line_is_internal l) := by
    simp [normalize_stack, List.enum_cons, List.filter_cons,
          enumFrom_filter_internal rest 1 one_ne_zero]
  refine ⟨hmain, fun l hl => ?_, by decide⟩
  rw [hmain] at hl
  simpa using List.of_mem_filter hl

theorem normalize_stack_policy_witness :
    line_is_internal "    at /srv/example/views/error.template:3:11" = false :=
  (normalize_stack_policy "Error: whoops :/"
    ["    at /srv/example/views/error.template:3:11",
     "    at include (/srv/async-template-literal-engine/template-engine.js:84:44)",
     "    at Script.runInNewContext (node:vm:149:12)"]).2.1
    "    at /srv/example/views/error.template:3:11" (by decide)

theorem run_ops_bag {α : Type} (body : List (TmplOp α)) (b : JsObj α)
    (locals : JsObj α) (out : String) :
    ∃ st', run_ops body ⟨some b, locals, out⟩ = .ok st'
      ∧ st'.bag = some (body.foldl (fun acc op =>
          match op with
          | .exportVar k v => obj_set acc k v
          | _ => acc) b) := by
  induction body generalizing b locals out with
  | nil => exact ⟨_, rfl, rfl⟩
  | cons op rest ih =>
    cases op with
    | text s =>
      simpa [run_ops, run_op, List.foldl_cons] using ih b locals (out ++ s)
    | setVar k v =>
      simpa [run_ops, run_op, tmpl_set, List.foldl_cons]
        using ih b (obj_set locals k v) (out ++ "")
    | exportVar k v =>
      simpa [run_ops, run_op, run_export_var, List.foldl_cons]
        using ih (obj_set b k v) locals (out ++ "")

theorem exports_of_not_mem {α : Type} (body : List (TmplOp α)) (k : String)
    (h : k ∉ exported_keys body) :
    ∀ b : JsObj α, b k = none →
      (body.foldl (fun acc op =>
        match op with
        | .exportVar k' v => obj_set acc k' v
        | _ => acc) b) k = none := by
  induction body with
  | nil => intro b hb; exact hb
  | cons op rest ih =>
    intro b hb
    cases op with
    | text s =>
      exact ih (by simpa [exported_keys] using h) b hb
    | setVar k' v =>
      exact ih (by simpa [exported_keys] using h) b hb
    | exportVar k' v =>
      have h' : k ≠ k' ∧ k ∉ exported_keys rest := by
        simpa [exported_keys, not_or] using h
      exact ih h'.2 (obj_set b k' v) (by simp [obj_set, hb, h'.1])

/-- C8: `import_vars` (src/template-engine.js:64-68) renders the named
template with a fresh export bag attached, discards the rendered text, and
returns exactly the accumulated exports: the bag of every `export_var`
performed by the body, with keys never exported absent; a body that only
exports `k ↦ v` yields exactly `\x7bk: v\x7d`. -/
theorem import_vars_exports (α : Type) (body : List (TmplOp α)) :
    import_vars body = .ok (exports_of body)
  ∧ (∀ k, k ∉ exported_keys body → exports_of body k = none)
  ∧ (∀ s, import_vars (.text s :: body) = import_vars body)
  ∧ (∀ (k : String) (v : α),
       import_vars [.exportVar k v] = .ok (obj_set obj_empty k v)) := by
  refine ⟨?_, ?_, ?_, ?_⟩
  · obtain ⟨st', h1, h2⟩ := run_ops_bag body obj_empty obj_empty ""
    simp [import_vars, h1, h2, exports_of]
  · intro k hk
    exact exports_of_not_mem body k hk obj_empty rfl
  · intro s
    obtain ⟨s1, e1, b1⟩ := run_ops_bag body obj_empty obj_empty s
    obtain ⟨s2, e2, b2⟩ := run_ops_bag body obj_empty obj_empty ""
    simp [import_vars, run_ops, run_op, e1, e2, b1, b2]
  · intro k v
    simp [import_vars, run_ops, run_op, run_export_var]

theorem import_vars_exports_witness :
    ("j" ∉ exported_keys [TmplOp.exportVar "k" (5 : Nat)])
  ∧ exports_of [TmplOp.exportVar "k" (5 : Nat)] "j" = none
  ∧ import_vars [TmplOp.exportVar "k" (5 : Nat)]
      = .ok (exports_of [TmplOp.exportVar "k" (5 : Nat)]) := by
  refine ⟨?_, ?_, ?_⟩
  · intro h; simp [exported_keys] at h
  · exact (import_vars_exports Nat [TmplOp.exportVar "k" 5]).2.1 "j"
      (by intro h; simp [exported_keys] at h)
  · exact (import_vars_exports Nat [TmplOp.exportVar "k" 5]).1

theorem load_template_eq (script_of : String → String → Except JsError Script)
    (fs : Fs) (st : EngineState) (p : String) (f : FsFile) (hf : fs p = some f) :
    load_template script_of fs st p =
      if ((st.file_cache p).isNone ||
          (match st.file_cache p with
           | some e => f.mtime != e.mtime
           | none => false)) then
        match f.read with
        | .error _ =>
          ({ file_cache := st.file_cache, locks := st.locks }, .error .ioError)
        | .ok content =>
          match script_of p content with
          | .error e =>
            ({ file_cache := st.file_cache, locks := st.locks }, .error e)
          | .ok script =>
            ({ file_cache := obj_set (obj_del st.file_cache p) p
                 { mtime := f.mtime, script := script },
               locks := st.locks }, .ok true)
      else (st, .ok false) := by
  unfold load_template
  rw [hf]
  dsimp only
  by_cases hn : ((st.file_cache p).isNone ||
      (match st.file_cache p with
       | some e => f.mtime != e.mtime
       | none => false)) = true
  · rw [if_pos hn, if_pos hn]
    cases hr : f.read with
    | error u => simp [hr, List.erase_cons_head]
    | ok content =>
      cases hs : script_of p content with
      | error e => simp [hr, hs, List.erase_cons_head]
      | ok script => simp [hr, hs, List.erase_cons_head]
  · rw [if_neg hn, if_neg hn]
    simp [List.erase_cons_head]

theorem load_template_fresh_entry
    (script_of : String → String → Except JsError Script) (fs : Fs)
    (st : EngineState) (p : String) (f : FsFile) (e : CacheEntry)
    (hf : fs p = some f) (hc : st.file_cache p = some e)
    (hm : f.mtime = e.mtime) :
    load_template script_of fs st p = (st, .ok false) := by
  rw [load_template_eq script_of fs st p f hf]
  simp [hc, hm]

/-- C1: `load_template` recompiles exactly when the file cache has no
entry for the path or the stored entry's modification time differs from
the current stat mtime (src/template-engine.js:20-22); otherwise it
returns with the state untouched, reading and compiling nothing.  When it
does recompile, it reads the file, compiles it and replaces the entry with
`\x7bcurrent mtime, fresh script\x7d`; consequently a second load of an
unchanged file never compiles again, so two consecutive renders compile at
most once. -/
theorem load_template_cache_policy
    (script_of : String → String → Except JsError Script) (fs : Fs)
    (st : EngineState) (p : String) (f : FsFile) (hf : fs p = some f) :
    ((st.file_cache p = none ∨ ∃ e, st.file_cache p = some e ∧ f.mtime ≠ e.mtime)
       ↔ (load_template script_of fs st p).2 ≠ .ok false)
  ∧ ((∀ e, st.file_cache p = some e → f.mtime = e.mtime) →
       st.file_cache p ≠ none →
       load_template script_of fs st p = (st, .ok false))
  ∧ ((load_template script_of fs st p).2 = .ok true →
       ∃ content script, f.read = .ok content ∧ script_of p content = .ok script ∧
         (load_template script_of fs st p).1.file_cache p
           = some { mtime := f.mtime, script := script })
  ∧ (∀ b, (load_template script_of fs st p).2 = .ok b →
       (load_template script_of fs (load_template script_of fs st p).1 p).2
         = .ok false) := by
  have heq := load_template_eq script_of fs st p f hf
  refine ⟨?_, ?_, ?_, ?_⟩
  · rw [heq]
    cases hc : st.file_cache p with
    | none =>
      simp only [hc, Option.isNone_none, Bool.true_or, if_true]
      cases hr : f.read with
      | error u => simp
      | ok content =>
        cases hs : script_of p content with
        | error e => simp [hs]
        | ok script => simp [hs]
    | some e =>
      by_cases hm : f.mtime = e.mtime
      · simp [hc, hm]
      · cases hr : f.read with
        | error u => simp [hc, hm, bne_iff_ne]
        | ok content =>
          cases hs : script_of p content with
          | error e' => simp [hc, hm, hs, bne_iff_ne]
          | ok script => simp [hc, hm, hs, bne_iff_ne]
  · intro hall hne
    cases hc : st.file_cache p with
    | none => exact absurd hc hne
    | some e => exact load_template_fresh_entry script_of fs st p f e hf hc (hall e hc)
  · intro hok
    by_cases hn : ((st.file_cache p).isNone ||
        (match st.file_cache p with
         | some e => f.mtime != e.mtime
         | none => false)) = true
    · cases hr : f.read with
      | error u =>
        have hval : load_template script_of fs st p
            = ({ file_cache := st.file_cache, locks := st.locks },
               .error .ioError) := by
          rw [heq, if_pos hn, hr]
        rw [hval] at hok
        simp at hok
      | ok content =>
        cases hs : script_of p content with
        | error e =>
          have hval : load_template script_of fs st p
              = ({ file_cache := st.file_cache, locks := st.locks },
                 .error e) := by
            rw [heq, if_pos hn, hr]
            simp [hs]
          rw [hval] at hok
          simp at hok
        | ok script =>
          have hval : load_template script_of fs st p
              = ({ file_cache := obj_set (obj_del st.file_cache p) p
                     { mtime := f.mtime, script := script },
                   locks := st.locks }, .ok true) := by
            rw [heq, if_pos hn, hr]
            simp [hs]
          exact ⟨content, script, rfl, hs, by rw [hval]; simp [obj_set]⟩
    · have hval : load_template script_of fs st p = (st, .ok false) := by
        rw [heq, if_neg hn]
      rw [hval] at hok
      simp at hok
  · intro b hb
    by_cases hn : ((st.file_cache p).isNone ||
        (match st.file_cache p with
         | some e => f.mtime != e.mtime
         | none => false)) = true
    · cases hr : f.read with
      | error u =>
        have hval : load_template script_of fs st p
            = ({ file_cache := st.file_cache, locks := st.locks },
               .error .ioError) := by
          rw [heq, if_pos hn, hr]
        rw [hval] at hb
        simp at hb
      | ok content =>
        cases hs : script_of p content with
        | error e =>
          have hval : load_template script_of fs st p
              = ({ file_cache := st.file_cache, locks := st.locks },
                 .error e) := by
            rw [heq, if_pos hn, hr]
            simp [hs]
          rw [hval] at hb
          simp at hb
        | ok script =>
          have hval : load_template script_of fs st p
              = ({ file_cache := obj_set (obj_del st.file_cache p) p
                     { mtime := f.mtime, script := script },
                   locks := st.locks }, .ok true) := by
            rw [heq, if_pos hn, hr]
            simp [hs]
          rw [hval]
          have h2 := load_template_fresh_entry script_of fs
            { file_cache := obj_set (obj_del st.file_cache p) p
                { mtime := f.mtime, script := script },
              locks := st.locks }
            p f { mtime := f.mtime, script := script } hf
            (by simp [obj_set]) rfl
          simp [h2]
    · have hval : load_template script_of fs st p = (st, .ok false) := by
        rw [heq, if_neg hn]
      rw [hval]
      have hc : ∃ e, st.file_cache p = some e ∧ f.mtime = e.mtime := by
        cases hcc : st.file_cache p with
        | none => rw [hcc] at hn; simp at hn
        | some e =>
          refine ⟨e, rfl, ?_⟩
          rw [hcc] at hn
          simpa [bne_iff_ne] using hn
      obtain ⟨e, hce, hme⟩ := hc
      have h2 := load_template_fresh_entry script_of fs st p f e hf hce hme
      simp [h2]

theorem load_template_cache_policy_witness :
    ((fun q => if q = "/views/a.template" then
        some ({ mtime := 5, read := .ok "Hello" } : FsFile) else none) : Fs)
      "/views/a.template" = some { mtime := 5, read := .ok "Hello" }
  ∧ (load_template (fun fp c => .ok (vm_Script fp c))
       (fun q => if q = "/views/a.template" then
          some { mtime := 5, read := .ok "Hello" } else none)
       (load_template (fun fp c => .ok (vm_Script fp c))
         (fun q => if q = "/views/a.template" then
            some { mtime := 5, read := .ok "Hello" } else none)
         ⟨obj_empty, []⟩ "/views/a.template").1
       "/views/a.template").2 = .ok false := by
  refine ⟨rfl, ?_⟩
  exact (load_template_cache_policy (fun fp c => .ok (vm_Script fp c))
    (fun q => if q = "/views/a.template" then
       some { mtime := 5, read := .ok "Hello" } else none)
    ⟨obj_empty, []⟩ "/views/a.template" { mtime := 5, read := .ok "Hello" }
    rfl).2.2.2 true rfl

/-- C6: the per-path mutex acquired by `load_template` is released on
every exit path — the lock multiset is restored whether the body returns
or `stat`, `readFile` or `vm.Script` construction throws
(src/template-engine.js:18, 38-40) — and from a state where the failed
fill left no cache entry, a subsequent load of the same path proceeds to
compile successfully once the file is readable. -/
theorem load_template_lock_release
    (script_of : String → String → Except JsError Script) (fs : Fs)
    (st : EngineState) (p : String) :
    (load_template script_of fs st p).1.locks = st.locks
  ∧ (∀ (fs2 : Fs) (m : Int) (content : String) (script : Script),
       (load_template script_of fs st p).1.file_cache p = none →
       fs2 p = some { mtime := m, read := .ok content } →
       script_of p content = .ok script →
       (load_template script_of fs2 (load_template script_of fs st p).1 p).2
         = .ok true) := by
  constructor
  · unfold load_template
    dsimp only
    split <;> simp [List.erase_cons_head]
  · intro fs2 m content script hnone hfs2 hsc
    rw [load_template_eq script_of fs2 _ p { mtime := m, read := .ok content } hfs2]
    simp [hnone, hsc]

theorem load_template_lock_release_witness :
    ((load_template (fun fp c => .ok (vm_Script fp c)) (fun _ => none)
        ⟨obj_empty, []⟩ "/views/a.template").1.file_cache "/views/a.template"
      = none)
  ∧ (((fun q => if q = "/views/a.template" then
        some ({ mtime := 7, read := .ok "Hi" } : FsFile) else none) : Fs)
      "/views/a.template" = some { mtime := 7, read := .ok "Hi" })
  ∧ ((fun fp c => (.ok (vm_Script fp c) : Except JsError Script))
      "/views/a.template" "Hi" = .ok (vm_Script "/views/a.template" "Hi"))
  ∧ (load_template (fun fp c => .ok (vm_Script fp c))
       (fun q => if q = "/views/a.template" then
          some { mtime := 7, read := .ok "Hi" } else none)
       (load_template (fun fp c => .ok (vm_Script fp c)) (fun _ => none)
         ⟨obj_empty, []⟩ "/views/a.template").1
       "/views/a.template").2 = .ok true := by
  refine ⟨rfl, rfl, rfl, ?_⟩
  exact (load_template_lock_release (fun fp c => .ok (vm_Script fp c))
    (fun _ => none) ⟨obj_empty, []⟩ "/views/a.template").2
    (fun q => if q = "/views/a.template" then
       some { mtime := 7, read := .ok "Hi" } else none)
    7 "Hi" (vm_Script "/views/a.template" "Hi") rfl rfl rfl

end TemplateEngine
